import Mathlib

set_option maxRecDepth 8192

/-!
Verification of the accessibility audit-to-remediation pipeline
(`src/vibium/accessibility-scanner.ts` and the caption-gap analyzer of the
agent definition).  The TypeScript source is shallowly embedded: template
literals become explicit string concatenations, the `||` falsy-default
operator on strings becomes `jsOrS`, optional chaining becomes `Option`,
and the bounded keyboard-walk `for` loop becomes fuel recursion.
-/

namespace A11y

/-- JavaScript `x || d` on an optionally-absent string: `undefined` and the
empty string (the only falsy string) both fall back to the default. -/
def jsOrS (o : Option String) (d : String) : String :=
  match o with
  | some s => if s = "" then d else s
  | none => d

/-! ## Substring testing

`strContainsB hay needle` decides whether `needle` occurs contiguously in
`hay`.  It is used to state every "the generated text contains ..." claim. -/

/-- Boolean list-prefix test. -/
def prefB : List Char → List Char → Bool
  | [], _ => true
  | _ :: _, [] => false
  | a :: as, b :: bs => a == b && prefB as bs

/-- Boolean list-infix test: `needle` occurs contiguously in the haystack. -/
def infxB (needle : List Char) : List Char → Bool
  | [] => prefB needle []
  | c :: rest => prefB needle (c :: rest) || infxB needle rest

/-- String containment: the needle occurs contiguously in the haystack. -/
def strContainsB (hay needle : String) : Bool :=
  infxB needle.data hay.data

theorem prefB_refl (l : List Char) : prefB l l = true := by
  induction l with
  | nil => rfl
  | cons a as ih => simp [prefB, ih]

theorem prefB_append (n l t : List Char) (h : prefB n l = true) :
    prefB n (l ++ t) = true := by
  induction n generalizing l with
  | nil => rfl
  | cons a as ih =>
    cases l with
    | nil => simp [prefB] at h
    | cons b bs =>
      simp only [prefB, Bool.and_eq_true] at h
      simp [prefB, h.1, ih bs h.2]

theorem infxB_nil (t : List Char) : infxB [] t = true := by
  cases t with
  | nil => rfl
  | cons c rest => simp [infxB, prefB]

theorem infxB_append_right (n h t : List Char) (hh : infxB n h = true) :
    infxB n (h ++ t) = true := by
  induction h with
  | nil =>
    cases n with
    | nil => exact infxB_nil t
    | cons a as => simp [infxB, prefB] at hh
  | cons c rest ih =>
    simp only [infxB, Bool.or_eq_true] at hh
    rcases hh with hp | hi
    · simp only [List.cons_append, infxB, Bool.or_eq_true]
      exact Or.inl (prefB_append n (c :: rest) t hp)
    · simp only [List.cons_append, infxB, Bool.or_eq_true]
      exact Or.inr (ih hi)

theorem infxB_append_left (n h t : List Char) (ht : infxB n t = true) :
    infxB n (h ++ t) = true := by
  induction h with
  | nil => simpa using ht
  | cons c rest ih =>
    simp only [List.cons_append, infxB, Bool.or_eq_true]
    exact Or.inr ih

theorem infxB_self (n : List Char) : infxB n n = true := by
  cases n with
  | nil => rfl
  | cons c rest => simp [infxB, prefB_refl]

theorem strContains_append_right {s n : String} (t : String)
    (h : strContainsB s n = true) : strContainsB (s ++ t) n = true := by
  simpa [strContainsB, String.data_append] using
    infxB_append_right n.data s.data t.data (by simpa [strContainsB] using h)

theorem strContains_append_left {t n : String} (s : String)
    (h : strContainsB t n = true) : strContainsB (s ++ t) n = true := by
  simpa [strContainsB, String.data_append] using
    infxB_append_left n.data s.data t.data (by simpa [strContainsB] using h)

theorem strContains_self (s : String) : strContainsB s s = true := by
  simp [strContainsB, infxB_self]

/-- A concatenation is empty only when both halves are. -/
theorem append_ne_empty_left (s t : String) (h : s ≠ "") : s ++ t ≠ "" := by
  intro he
  apply h
  have hd : (s ++ t).data = [] := by rw [he]
  rw [String.data_append] at hd
  rcases List.append_eq_nil.mp hd with ⟨h1, _⟩
  cases s with
  | mk d =>
    simp only at h1
    rw [h1]

/-! ## Tag Resolver (`getWcagTags`, accessibility-scanner.ts lines 432-444) -/

/-- WCAG conformance level, the TS union type of the strings A, AA, AAA. -/
inductive WcagLevel where
  | A
  | AA
  | AAA
deriving DecidableEq, Repr

/-- Strictness rank of a conformance level: A < AA < AAA. -/
def levelRank : WcagLevel → Nat
  | .A => 0
  | .AA => 1
  | .AAA => 2

/-- axe-core WCAG tag mapping (`getWcagTags`). -/
def getWcagTags (level : WcagLevel) : List String :=
  let baseTags := ["wcag2a", "wcag21a"]
  let baseTags :=
    if level = WcagLevel.AA ∨ level = WcagLevel.AAA then
      baseTags ++ ["wcag2aa", "wcag21aa", "wcag22aa"]
    else baseTags
  if level = WcagLevel.AAA then
    baseTags ++ ["wcag2aaa", "wcag21aaa"]
  else baseTags

/-- C5: for conformance levels L1 < L2 under A < AA < AAA, the tag list
returned by `getWcagTags` for L1 is a subset of the one returned for L2
(AA adds the AA tags on top of the A tags, AAA adds the AAA tags on top). -/
theorem getWcagTags_monotone (l1 l2 : WcagLevel)
    (h : levelRank l1 < levelRank l2) :
    getWcagTags l1 ⊆ getWcagTags l2 := by
  cases l1 <;> cases l2 <;> simp_all [getWcagTags, levelRank]

/-- Witness for C5 at the concrete pair A < AA. -/
theorem getWcagTags_monotone_witness :
    getWcagTags WcagLevel.A ⊆ getWcagTags WcagLevel.AA :=
  getWcagTags_monotone WcagLevel.A WcagLevel.AA (by decide)

/-! ## Fix Template Engine data model (accessibility-scanner.ts lines 11-26)

`A11yNode.data` is `Record<string, unknown>` in the source, read through the
cast `Record<string, string>`; it is embedded as an association list. -/

/-- One affected DOM node of a violation (`A11yNode`). -/
structure A11yNode where
  html : String
  target : List String
  failureSummary : String
  data : Option (List (String × String))
deriving DecidableEq, Repr

/-- One detected accessibility violation (`A11yViolation`).  `impact` is the
TS union of the four severity strings. -/
structure A11yViolation where
  id : String
  impact : String
  description : String
  help : String
  helpUrl : String
  tags : List String
  nodes : List A11yNode
deriving DecidableEq, Repr

/-- JavaScript `s.replace(/\x5c\x2f?>/, repl)`: replace the first occurrence
of an optional slash followed by `>` (the regex tries the slash greedily at
each position); if no occurrence exists the string is unchanged. -/
def replaceSlashGtChars (repl : List Char) : List Char → List Char
  | [] => []
  | '/' :: '>' :: rest => repl ++ rest
  | '>' :: rest => repl ++ rest
  | c :: rest => c :: replaceSlashGtChars repl rest

/-- String wrapper for `replaceSlashGtChars`. -/
def replaceSlashGt (s repl : String) : String :=
  String.mk (replaceSlashGtChars repl.data s.data)

/-- The `color-contrast` template (lines 75-95). -/
def contrastFix (ratioText target : String) : String :=
  "\n/* Fix: Insufficient color contrast */\n/* Current ratio: " ++ ratioText
  ++ " (required: 4.5:1 for normal text, 3:1 for large text) */\n/* WCAG: 1.4.3 Contrast (Minimum) Level AA */\n\n/* Option 1: Darken text color */\n"
  ++ target
  ++ " \x7b\n  color: #1a1a1a; /* Higher contrast dark color */\n\x7d\n\n/* Option 2: Lighten background */\n"
  ++ target
  ++ " \x7b\n  background-color: #ffffff;\n\x7d\n\n/* Option 3: Both adjustments */\n"
  ++ target
  ++ " \x7b\n  color: #333333;\n  background-color: #fafafa;\n\x7d\n"

/-- The `label` template (lines 97-115). -/
def labelFix (html : String) : String :=
  "\n<!-- Fix: Form input missing label -->\n<!-- WCAG: 1.3.1 Info and Relationships, 4.1.2 Name, Role, Value -->\n<!-- Before: -->\n"
  ++ html
  ++ "\n\n<!-- After: Add explicit label -->\n<label for=\"input-id\">\n  Descriptive Label Text\n</label>\n<input type=\"text\" id=\"input-id\" name=\"field-name\" />\n\n<!-- Or use aria-label for visual hiding -->\n<input\n  type=\"text\"\n  aria-label=\"Descriptive label for screen readers\"\n  placeholder=\"Visual placeholder\"\n/>\n"

/-- The `image-alt` template (lines 117-128). -/
def imageAltFix (html : String) : String :=
  "\n<!-- Fix: Image missing alternative text -->\n<!-- WCAG: 1.1.1 Non-text Content Level A -->\n<!-- Before: -->\n"
  ++ html
  ++ "\n\n<!-- After: Add descriptive alt text -->\n"
  ++ replaceSlashGt html " alt=\"[Describe the image content and purpose]\" />"
  ++ "\n\n<!-- For decorative images only: -->\n"
  ++ replaceSlashGt html " alt=\"\" role=\"presentation\" />"
  ++ "\n"

/-- The `button-name` template (lines 130-151). -/
def buttonNameFix (html : String) : String :=
  "\n<!-- Fix: Button has no accessible name -->\n<!-- WCAG: 4.1.2 Name, Role, Value Level A -->\n<!-- Before: -->\n"
  ++ html
  ++ "\n\n<!-- Option 1: Add visible text -->\n<button type=\"button\">\n  Click to Submit\n</button>\n\n<!-- Option 2: Add aria-label (for icon-only buttons) -->\n<button type=\"button\" aria-label=\"Submit form\">\n  <svg aria-hidden=\"true\"><!-- icon --></svg>\n</button>\n\n<!-- Option 3: Use aria-labelledby -->\n<button type=\"button\" aria-labelledby=\"btn-label\">\n  <span id=\"btn-label\" class=\"visually-hidden\">Submit form</span>\n  <svg aria-hidden=\"true\"><!-- icon --></svg>\n</button>\n"

/-- The `link-name` template (lines 153-168). -/
def linkNameFix (html : String) : String :=
  "\n<!-- Fix: Link has no accessible name -->\n<!-- WCAG: 2.4.4 Link Purpose, 4.1.2 Name, Role, Value -->\n<!-- Before: -->\n"
  ++ html
  ++ "\n\n<!-- After: Add descriptive text -->\n<a href=\"/destination\">\n  Descriptive Link Text\n</a>\n\n<!-- For icon links: -->\n<a href=\"/destination\" aria-label=\"View user profile\">\n  <svg aria-hidden=\"true\"><!-- icon --></svg>\n</a>\n"

/-- The `html-has-lang` template (lines 170-179). -/
def htmlHasLangFix : String :=
  "\n<!-- Fix: Page missing language attribute -->\n<!-- WCAG: 3.1.1 Language of Page Level A -->\n<!-- Before: -->\n<html>\n\n<!-- After: Add lang attribute -->\n<html lang=\"en\">\n<!-- Use appropriate language code: en, es, fr, de, zh, etc. -->\n"

/-- The `landmark-one-main` template (lines 181-196). -/
def landmarkOneMainFix : String :=
  "\n<!-- Fix: Page should have one main landmark -->\n<!-- WCAG: 1.3.1 Info and Relationships -->\n\n<!-- Add main landmark to page content -->\n<body>\n  <header>...</header>\n  <nav>...</nav>\n\n  <main id=\"main-content\">\n    <!-- Primary page content here -->\n  </main>\n\n  <footer>...</footer>\n</body>\n"

/-- The `region` template (lines 198-222). -/
def regionFix : String :=
  "\n<!-- Fix: Content not contained in a landmark region -->\n<!-- WCAG: 1.3.1 Info and Relationships -->\n\n<!-- Wrap content in appropriate landmarks -->\n<header role=\"banner\">\n  <!-- Site header content -->\n</header>\n\n<nav role=\"navigation\" aria-label=\"Main\">\n  <!-- Navigation links -->\n</nav>\n\n<main role=\"main\">\n  <!-- Primary content -->\n</main>\n\n<aside role=\"complementary\">\n  <!-- Secondary content -->\n</aside>\n\n<footer role=\"contentinfo\">\n  <!-- Footer content -->\n</footer>\n"

/-- The `heading-order` template (lines 224-237). -/
def headingOrderFix : String :=
  "\n<!-- Fix: Heading levels should only increase by one -->\n<!-- WCAG: 1.3.1 Info and Relationships -->\n<!-- Don\x27t skip from h1 to h3, or h2 to h4 -->\n\n<!-- Before (incorrect): -->\n<h1>Page Title</h1>\n<h3>Subsection</h3>  <!-- Skipped h2! -->\n\n<!-- After (correct): -->\n<h1>Page Title</h1>\n<h2>Section</h2>\n<h3>Subsection</h3>\n"

/-- The `focus-order-semantics` template (lines 239-259). -/
def focusOrderSemanticsFix : String :=
  "\n<!-- Fix: Focus order should follow logical reading order -->\n<!-- WCAG: 2.4.3 Focus Order Level A -->\n\n/* Avoid positive tabindex values */\n/* Before (incorrect): */\n<button tabindex=\"3\">Third</button>\n<button tabindex=\"1\">First</button>\n<button tabindex=\"2\">Second</button>\n\n/* After (correct - use DOM order): */\n<button>First</button>\n<button>Second</button>\n<button>Third</button>\n\n/* Use tabindex=\"0\" for custom focusable elements */\n<div role=\"button\" tabindex=\"0\">Custom Button</div>\n\n/* Use tabindex=\"-1\" for programmatic focus only */\n<div tabindex=\"-1\" id=\"error-message\">Error!</div>\n"

/-- The `target-size` template (lines 261-280). -/
def targetSizeFix : String :=
  "\n<!-- Fix: Target size too small for touch -->\n<!-- WCAG: 2.5.8 Target Size (Minimum) Level AA -->\n<!-- Minimum 24x24 CSS pixels -->\n\n/* Before: */\n.small-button \x7b\n  width: 16px;\n  height: 16px;\n\x7d\n\n/* After: Meet minimum 24x24px */\n.accessible-button \x7b\n  min-width: 24px;\n  min-height: 24px;\n  /* Or better: 44x44px for comfortable touch */\n  min-width: 44px;\n  min-height: 44px;\n\x7d\n"

/-- The generic fallback template (lines 283-294). -/
def genericFix (violation : A11yViolation) (html : String) : String :=
  "\n/* Manual fix required for: " ++ violation.id
  ++ " */\n/* Description: " ++ violation.description
  ++ " */\n/* Help: " ++ violation.helpUrl
  ++ " */\n/* Impact: " ++ violation.impact
  ++ " */\n\n/* Affected element: */\n" ++ html
  ++ "\n\n/* Recommendation: */\n/* " ++ violation.help ++ " */\n"

/-- The keys of the static template table `fixes` (lines 74-281), in source
order. -/
def templateKeys : List String :=
  ["color-contrast", "label", "image-alt", "button-name", "link-name",
   "html-has-lang", "landmark-one-main", "region", "heading-order",
   "focus-order-semantics", "target-size"]

/-- The static template table `fixes`, with the parameters every template is
interpolated from (lines 74-281). -/
def fixTemplates (html target ratioText : String) : List (String × String) :=
  [("color-contrast", contrastFix ratioText target),
   ("label", labelFix html),
   ("image-alt", imageAltFix html),
   ("button-name", buttonNameFix html),
   ("link-name", linkNameFix html),
   ("html-has-lang", htmlHasLangFix),
   ("landmark-one-main", landmarkOneMainFix),
   ("region", regionFix),
   ("heading-order", headingOrderFix),
   ("focus-order-semantics", focusOrderSemanticsFix),
   ("target-size", targetSizeFix)]

/-- Runtime value of the JS expression `fixes[violation.id] || fallback`:
the object index is a plain property read, so a rule id naming an
`Object.prototype` member yields the inherited member — a function or
object, not a string. -/
inductive FixValue where
  | str (s : String)
  | inherited (name : String)
deriving DecidableEq, Repr

/-- The member names of `Object.prototype` inherited by every object
literal, `fixes` included: indexing `fixes[id]` with one of these returns
the inherited member (always truthy) instead of `undefined`. -/
def objectProtoKeys : List String :=
  ["constructor", "hasOwnProperty", "isPrototypeOf", "propertyIsEnumerable",
   "toLocaleString", "toString", "valueOf", "__proto__",
   "__defineGetter__", "__defineSetter__", "__lookupGetter__",
   "__lookupSetter__"]

/-- JavaScript property read `own[key]` on an object literal: own keys
first, then the `Object.prototype` chain, else `undefined` (`none`). -/
def jsIndex (own : List (String × String)) (key : String) : Option FixValue :=
  match List.lookup key own with
  | some s => some (FixValue.str s)
  | none =>
      if key ∈ objectProtoKeys then some (FixValue.inherited key) else none

/-- JavaScript `x || d` on the property-read result: `undefined` and the
empty string fall back to the default; an inherited member is a function or
object, hence truthy, and is kept. -/
def jsOrV (o : Option FixValue) (d : String) : FixValue :=
  match o with
  | some (FixValue.str s) => if s = "" then FixValue.str d else FixValue.str s
  | some v => v
  | none => FixValue.str d

/-- String-level image of `generateFix` (lines 68-295): the fix text the
source produces for every rule id that does not collide with an
`Object.prototype` member name.  The defaults of `node?.html || ''`,
`node?.target[0] || ''` and of the ratio (defaulting to "unknown") become
`jsOrS` over options.  The collision cases, where the source returns the
inherited member instead of a string, are carried by `generateFixJs`;
`generateFixJs_agrees` proves the two coincide away from those names. -/
def generateFix (violation : A11yViolation) : String :=
  jsOrS
    (List.lookup violation.id
      (fixTemplates
        (jsOrS ((violation.nodes.head?).map A11yNode.html) "")
        (jsOrS ((violation.nodes.head?).bind (fun n => n.target.head?)) "")
        (jsOrS (((violation.nodes.head?).bind A11yNode.data).bind
          (fun d => List.lookup "ratio" d)) "unknown")))
    (genericFix violation (jsOrS ((violation.nodes.head?).map A11yNode.html) ""))

/-- Faithful result of `generateFix` as the source evaluates it:
`fixes[violation.id] || fallback` with the object index reading through the
prototype chain (line 283). -/
def generateFixJs (violation : A11yViolation) : FixValue :=
  jsOrV
    (jsIndex
      (fixTemplates
        (jsOrS ((violation.nodes.head?).map A11yNode.html) "")
        (jsOrS ((violation.nodes.head?).bind (fun n => n.target.head?)) "")
        (jsOrS (((violation.nodes.head?).bind A11yNode.data).bind
          (fun d => List.lookup "ratio" d)) "unknown"))
      violation.id)
    (genericFix violation (jsOrS ((violation.nodes.head?).map A11yNode.html) ""))

/-- Away from `Object.prototype` member names, the prototype-aware property
read followed by the truthiness default is the plain table lookup followed
by the string default. -/
theorem jsOrV_jsIndex_of_not_proto (own : List (String × String))
    (key d : String) (hp : key ∉ objectProtoKeys) :
    jsOrV (jsIndex own key) d = FixValue.str (jsOrS (List.lookup key own) d) := by
  unfold jsIndex
  cases List.lookup key own with
  | none => simp [jsOrV, jsOrS, if_neg hp]
  | some s =>
    by_cases hs : s = "" <;> simp [jsOrV, jsOrS, hs]

/-- On every rule id that does not name an `Object.prototype` member, the
faithful dispatch returns exactly the string `generateFix` computes. -/
theorem generateFixJs_agrees (v : A11yViolation)
    (hp : v.id ∉ objectProtoKeys) :
    generateFixJs v = FixValue.str (generateFix v) := by
  unfold generateFixJs generateFix
  exact jsOrV_jsIndex_of_not_proto _ _ _ hp

/-- A rule id outside the template table finds no template. -/
theorem lookup_templates_none (a html target ratioText : String)
    (h : a ∉ templateKeys) :
    List.lookup a (fixTemplates html target ratioText) = none := by
  simp only [templateKeys, List.mem_cons, List.not_mem_nil, or_false, not_or] at h
  obtain ⟨h1, h2, h3, h4, h5, h6, h7, h8, h9, h10, h11⟩ := h
  simp [fixTemplates, List.lookup_cons, beq_false_of_ne h1, beq_false_of_ne h2,
    beq_false_of_ne h3, beq_false_of_ne h4, beq_false_of_ne h5, beq_false_of_ne h6,
    beq_false_of_ne h7, beq_false_of_ne h8, beq_false_of_ne h9, beq_false_of_ne h10,
    beq_false_of_ne h11]

/-- C1 counterexample: the object index reads through the prototype chain,
so a violation whose rule id is "toString" — not a key of the template
table — makes the source return the inherited `Object.prototype.toString`
member, which is truthy, so the fallback branch is never reached and no
generic fallback text containing the description and help URL is produced. -/
theorem generateFixJs_prototype_counterexample :
    generateFixJs ⟨"toString", "minor", "d", "h", "https://example.org", [], []⟩ =
      FixValue.inherited "toString" ∧
    generateFixJs ⟨"toString", "minor", "d", "h", "https://example.org", [], []⟩ ≠
      FixValue.str
        (genericFix ⟨"toString", "minor", "d", "h", "https://example.org", [], []⟩ "") := by
  constructor
  · decide
  · decide

/-- C1 (amended): for every violation whose rule id is neither a key of the
static template table nor the name of an `Object.prototype` member,
`generateFix` returns the generic fallback, whose text contains the
violation's description, help URL, impact, and the affected markup
(`node?.html || ''`), and the faithful prototype-aware dispatch agrees with
that string result; for rule ids naming `Object.prototype` members the
source instead returns the inherited member.  The embedding is total, so no
error is possible for any well-typed violation. -/
theorem generateFix_unknown_rule_fallback (v : A11yViolation)
    (h : v.id ∉ templateKeys) (hp : v.id ∉ objectProtoKeys) :
    generateFixJs v = FixValue.str (generateFix v) ∧
    strContainsB (generateFix v) v.description = true ∧
    strContainsB (generateFix v) v.helpUrl = true ∧
    strContainsB (generateFix v) v.impact = true ∧
    strContainsB (generateFix v) (jsOrS ((v.nodes.head?).map A11yNode.html) "") = true := by
  have hfix : generateFix v =
      genericFix v (jsOrS ((v.nodes.head?).map A11yNode.html) "") := by
    unfold generateFix
    rw [lookup_templates_none _ _ _ _ h]
    rfl
  refine ⟨generateFixJs_agrees v hp, ?_, ?_, ?_, ?_⟩ <;>
    rw [hfix] <;>
    unfold genericFix <;>
    repeat
      first
      | exact strContains_append_left _ (strContains_self _)
      | apply strContains_append_right

/-- Witness for the amended C1 at a concrete violation whose rule id is in
neither the template table nor the prototype-member list. -/
theorem generateFix_unknown_rule_fallback_witness :
    generateFixJs
        ⟨"custom-rule", "moderate", "Custom description", "Custom help",
         "https://example.org/help", [], []⟩ =
      FixValue.str
        (generateFix
          ⟨"custom-rule", "moderate", "Custom description", "Custom help",
           "https://example.org/help", [], []⟩) ∧
    strContainsB
      (generateFix
        ⟨"custom-rule", "moderate", "Custom description", "Custom help",
         "https://example.org/help", [], []⟩)
      "Custom description" = true := by
  have h := generateFix_unknown_rule_fallback
    ⟨"custom-rule", "moderate", "Custom description", "Custom help",
     "https://example.org/help", [], []⟩ (by decide) (by decide)
  exact ⟨h.1, h.2.1⟩

/-- C2: `generateFix` is deterministic — identical violation values yield
identical output strings.  The embedding is a pure function of its argument,
so the property is congruence. -/
theorem generateFix_deterministic (v w : A11yViolation) (h : v = w) :
    generateFix v = generateFix w := by
  rw [h]

/-- Witness for C2 at a concrete violation. -/
theorem generateFix_deterministic_witness :
    generateFix ⟨"label", "minor", "d", "h", "u", [], []⟩ =
      generateFix ⟨"label", "minor", "d", "h", "u", [], []⟩ :=
  generateFix_deterministic _ _ rfl

/-- The contrast template is never the empty string. -/
theorem contrastFix_ne_empty (r t : String) : contrastFix r t ≠ "" := by
  unfold contrastFix
  repeat apply append_ne_empty_left
  decide

/-- C3: a `color-contrast` violation whose first node carries
`data.ratio = "2.1"` and selector `.low-contrast-text` produces fix text
containing the ratio, the selector, the WCAG 1.4.3 citation, and the two
independent remediation strategies (darken text, lighten background). -/
theorem generateFix_contrast_example (v : A11yViolation) (n : A11yNode)
    (hid : v.id = "color-contrast")
    (hn : v.nodes.head? = some n)
    (hr : n.data.bind (fun d => List.lookup "ratio" d) = some "2.1")
    (ht : n.target = [".low-contrast-text"]) :
    strContainsB (generateFix v) "2.1" = true ∧
    strContainsB (generateFix v) ".low-contrast-text" = true ∧
    strContainsB (generateFix v) "1.4.3" = true ∧
    strContainsB (generateFix v) "Option 1: Darken text color" = true ∧
    strContainsB (generateFix v) "Option 2: Lighten background" = true := by
  have hfix : generateFix v = contrastFix "2.1" ".low-contrast-text" := by
    unfold generateFix
    rw [hid, hn]
    simp only [Option.map_some', Option.some_bind, ht, hr, List.head?_cons]
    simp only [fixTemplates, List.lookup_cons, beq_self_eq_true, cond_true, jsOrS]
    rw [if_neg (contrastFix_ne_empty _ _)]
    decide
  rw [hfix]
  decide

/-- Witness for C3 at a concrete contrast violation. -/
theorem generateFix_contrast_example_witness :
    strContainsB
      (generateFix
        ⟨"color-contrast", "serious", "Insufficient contrast", "Fix contrast",
         "https://example.org/contrast", [],
         [⟨"<p class=\"low-contrast-text\">x</p>", [".low-contrast-text"], "",
           some [("ratio", "2.1")]⟩]⟩)
      "2.1" = true := by
  exact (generateFix_contrast_example
    ⟨"color-contrast", "serious", "Insufficient contrast", "Fix contrast",
     "https://example.org/contrast", [],
     [⟨"<p class=\"low-contrast-text\">x</p>", [".low-contrast-text"], "",
       some [("ratio", "2.1")]⟩]⟩
    ⟨"<p class=\"low-contrast-text\">x</p>", [".low-contrast-text"], "",
      some [("ratio", "2.1")]⟩
    rfl rfl (by decide) rfl).1

/-- C4 counterexample: a `label` violation with an empty node list is a
syntactically valid violation with absent node data, yet the generated fix
text contains no "unknown" placeholder anywhere — the affected markup field
is interpolated as the empty string, i.e. omitted. -/
theorem generateFix_label_empty_nodes_no_placeholder :
    strContainsB
      (generateFix
        ⟨"label", "critical", "Form elements must have labels",
         "Add a label", "https://example.org/label", [], []⟩)
      "unknown" = false := by
  decide

/-- C4 (amended): in the only template that consumes rule-specific data, the
`color-contrast` one, a missing measured ratio (empty node list, absent data
map, or absent ratio key) degrades to the explicit placeholder "unknown" in
the output; fields taken from a missing node (markup, selector) degrade to
the empty string instead, and the embedded `generateFix` is total, so no
malformed node data can make it fail. -/
theorem generateFix_contrast_missing_ratio (v : A11yViolation)
    (hid : v.id = "color-contrast")
    (hmiss : v.nodes = [] ∨ ((v.nodes.head?).bind A11yNode.data) = none ∨
      ((v.nodes.head?).bind A11yNode.data).bind
        (fun d => List.lookup "ratio" d) = none) :
    strContainsB (generateFix v) "unknown" = true := by
  have hopt : ((v.nodes.head?).bind A11yNode.data).bind
      (fun d => List.lookup "ratio" d) = none := by
    rcases hmiss with h | h | h
    · rw [h]; rfl
    · rw [h]; rfl
    · exact h
  have hfix : generateFix v =
      contrastFix "unknown"
        (jsOrS ((v.nodes.head?).bind (fun n => n.target.head?)) "") := by
    unfold generateFix
    rw [hid, hopt]
    simp only [fixTemplates, List.lookup_cons, beq_self_eq_true, cond_true, jsOrS]
    rw [if_neg (contrastFix_ne_empty _ _)]
  rw [hfix]
  clear hfix hopt hmiss hid
  unfold contrastFix
  repeat
    first
    | exact strContains_append_left _ (strContains_self _)
    | apply strContains_append_right

/-- Witness for the amended C4 at a concrete violation with no nodes. -/
theorem generateFix_contrast_missing_ratio_witness :
    strContainsB
      (generateFix
        ⟨"color-contrast", "serious", "Insufficient contrast", "Fix contrast",
         "https://example.org/contrast", [], []⟩)
      "unknown" = true := by
  exact generateFix_contrast_missing_ratio
    ⟨"color-contrast", "serious", "Insufficient contrast", "Fix contrast",
     "https://example.org/contrast", [], []⟩
    rfl (Or.inl rfl)

/-! ## Caption Gap Analyzer

`VideoInfo` is the scanner's media-element record (accessibility-scanner.ts
lines 38-43); `generateCaptionFix` is lines 300-363; the gap filter
`missingCaptions` and its remediation template come from the agent
definition's Phase 5 (`detectVideos`, part_000 lines 196-236). -/

/-- One `<track>` descriptor of a discovered video. -/
structure TrackDescriptor where
  kind : String
  label : String
  src : String
deriving DecidableEq, Repr

/-- One discovered video/embed (`VideoInfo`). -/
structure VideoInfo where
  type : String
  src : String
  hasTrack : Bool
  trackKinds : List TrackDescriptor
deriving DecidableEq, Repr

/-- Splitter for JavaScript `s.split(sep)` with a one-character separator:
accumulates the current field and starts a new one at every separator. -/
def splitCharAux (sep : Char) : List Char → List Char → List (List Char)
  | [], acc => [acc.reverse]
  | c :: rest, acc =>
      if c == sep then acc.reverse :: splitCharAux sep rest []
      else splitCharAux sep rest (c :: acc)

/-- JavaScript `s.split(sep)` for a one-character separator: always returns
at least one (possibly empty) field. -/
def jsSplitChar (s : String) (sep : Char) : List String :=
  (splitCharAux sep s.data []).map String.mk

/-- JavaScript `s.replace(/\x5c.[^.]+$/, repl)`: if the string ends in a dot
followed by one or more non-dot characters, replace that suffix by `repl`,
otherwise return the string unchanged. -/
def replaceLastExt (s repl : String) : String :=
  let rev := s.data.reverse
  let ext := rev.takeWhile (fun c => c != '.')
  match rev.drop ext.length with
  | '.' :: restRev =>
      if ext.isEmpty then s else String.mk (restRev.reverse ++ repl.data)
  | _ => s

/-- The filename stem of `generateCaptionFix` (line 301): split the source
URL on slashes, take the last component, strip its extension, and default
to "video" when the result is empty or absent.  `jsSplitChar` never returns
an empty list, so the `getLast?` always succeeds, matching the JS `pop()`
on a non-empty array. -/
def captionFilename (src : String) : String :=
  jsOrS ((jsSplitChar src '/').getLast?.map (fun s => replaceLastExt s "")) "video"

/-- Generate video caption fix template (`generateCaptionFix`,
lines 300-363). -/
def generateCaptionFix (video : VideoInfo) : String :=
  "\n<!-- Video missing captions: " ++ video.src
  ++ " -->\n<!-- WCAG: 1.2.2 Captions (Prerecorded) Level A -->\n<!-- WCAG: 1.2.3 Audio Description or Media Alternative Level A -->\n\n<!-- Before: -->\n<video src=\""
  ++ video.src
  ++ "\"></video>\n\n<!-- After: Add caption and description tracks -->\n<video src=\""
  ++ video.src
  ++ "\" controls>\n  <!-- Captions for deaf/hard-of-hearing users -->\n  <track\n    kind=\"captions\"\n    src=\""
  ++ ("/captions/" ++ captionFilename video.src ++ ".vtt")
  ++ "\"\n    srclang=\"en\"\n    label=\"English Captions\"\n    default\n  />\n\n  <!-- Subtitles for non-native speakers (optional) -->\n  <track\n    kind=\"subtitles\"\n    src=\"/subtitles/"
  ++ captionFilename video.src
  ++ "-es.vtt\"\n    srclang=\"es\"\n    label=\"Spanish Subtitles\"\n  />\n\n  <!-- Audio descriptions for blind users (optional but recommended) -->\n  <track\n    kind=\"descriptions\"\n    src=\"/descriptions/"
  ++ captionFilename video.src
  ++ "-descriptions.vtt\"\n    srclang=\"en\"\n    label=\"Audio Descriptions\"\n  />\n\n  <!-- Fallback for browsers that don\x27t support video -->\n  <p>\n    Your browser doesn\x27t support HTML5 video.\n    <a href=\""
  ++ video.src
  ++ "\">Download the video</a> or\n    <a href=\"/transcripts/"
  ++ captionFilename video.src
  ++ ".html\">read the transcript</a>.\n  </p>\n</video>\n\n<!-- WebVTT Caption File Template ("
  ++ captionFilename video.src
  ++ ".vtt): -->\n<!--\nWEBVTT\n\n1\n00:00:00.000 --> 00:00:03.000\n[Speaker name] First line of dialogue.\n\n2\n00:00:03.500 --> 00:00:07.000\nSecond line of dialogue continues here.\n\n3\n00:00:07.500 --> 00:00:10.000\n[Sound effect description in brackets]\n-->\n"

/-- The gap filter of the agent definition's Phase 5:
`videos.filter(v => !v.hasTrack)` (part_000 line 208). -/
def missingCaptions (videos : List VideoInfo) : List VideoInfo :=
  videos.filter (fun v => !v.hasTrack)

/-- The remediation markup logged per caption-less video by Phase 5
(part_000 lines 212-232). -/
def captionGapMarkup (video : VideoInfo) : String :=
  "\n<!-- Video missing captions: " ++ video.src
  ++ " -->\n<!-- Add track element for captions: -->\n\n<video src=\""
  ++ video.src
  ++ "\">\n  <track\n    kind=\"captions\"\n    src=\"/captions/"
  ++ replaceLastExt ((jsSplitChar video.src '/').getLastD "") ".vtt"
  ++ "\"\n    srclang=\"en\"\n    label=\"English\"\n    default\n  />\n  <!-- Also add audio descriptions if needed: -->\n  <track\n    kind=\"descriptions\"\n    src=\"/descriptions/"
  ++ replaceLastExt ((jsSplitChar video.src '/').getLastD "") "-descriptions.vtt"
  ++ "\"\n    srclang=\"en\"\n    label=\"Audio Descriptions\"\n  />\n</video>\n    "

/-- The Caption Gap Analyzer's remediation output: one entry per video
lacking a caption track (part_000 lines 208-233). -/
def captionRemediations (videos : List VideoInfo) : List (VideoInfo × String) :=
  (missingCaptions videos).map (fun v => (v, captionGapMarkup v))

/-- C6: a media element that already has a caption track never appears in
the gap list, and the remediation output carries no entry for it —
remediations are emitted only for elements lacking any caption track. -/
theorem missingCaptions_excludes_captioned (videos : List VideoInfo)
    (v : VideoInfo) (h : v.hasTrack = true) :
    v ∉ missingCaptions videos ∧
    ∀ s, (v, s) ∉ captionRemediations videos := by
  constructor
  · intro hmem
    have hp := (List.mem_filter.mp hmem).2
    simp [h] at hp
  · intro s hmem
    rcases List.mem_map.mp hmem with ⟨w, hw, heq⟩
    have hwv : w = v := congrArg Prod.fst heq
    rw [hwv] at hw
    have hp := (List.mem_filter.mp hw).2
    simp [h] at hp

/-- Witness for C6 at a concrete pair of videos. -/
theorem missingCaptions_excludes_captioned_witness :
    (⟨"VIDEO", "/a.mp4", true, [⟨"captions", "English", "/a.vtt"⟩]⟩ : VideoInfo) ∉
      missingCaptions
        [⟨"VIDEO", "/a.mp4", true, [⟨"captions", "English", "/a.vtt"⟩]⟩,
         ⟨"VIDEO", "/b.mp4", false, []⟩] := by
  exact (missingCaptions_excludes_captioned
    [⟨"VIDEO", "/a.mp4", true, [⟨"captions", "English", "/a.vtt"⟩]⟩,
     ⟨"VIDEO", "/b.mp4", false, []⟩]
    ⟨"VIDEO", "/a.mp4", true, [⟨"captions", "English", "/a.vtt"⟩]⟩ rfl).1

/-- C7: every generated caption remediation embeds the stem derived from the
source URL (path and extension stripped) as the track source
`/captions/<stem>.vtt`; the example URL `/media/intro.mp4` yields the stem
`intro` and fix text containing `intro.vtt`, and an empty source URL falls
back to the stem `video` rather than failing. -/
theorem generateCaptionFix_filename :
    (∀ video : VideoInfo,
      strContainsB (generateCaptionFix video)
        ("/captions/" ++ captionFilename video.src ++ ".vtt") = true) ∧
    captionFilename "/media/intro.mp4" = "intro" ∧
    captionFilename "" = "video" ∧
    strContainsB (generateCaptionFix ⟨"VIDEO", "/media/intro.mp4", false, []⟩)
      "intro.vtt" = true ∧
    strContainsB (generateCaptionFix ⟨"VIDEO", "", false, []⟩)
      "/captions/video.vtt" = true := by
  refine ⟨?_, by decide, by decide, by decide, by decide⟩
  intro video
  unfold generateCaptionFix
  apply strContains_append_right
  apply strContains_append_right
  apply strContains_append_right
  apply strContains_append_right
  apply strContains_append_right
  apply strContains_append_right
  apply strContains_append_right
  apply strContains_append_right
  apply strContains_append_right
  apply strContains_append_right
  apply strContains_append_right
  exact strContains_append_left _ (strContains_self _)

/-! ## Focus Walker (`runKeyboardTest`, accessibility-scanner.ts lines 613-668)

The browser is modelled as the stream `page : Nat → Option TabEl` of
active-element observations returned by the `evaluate` call after the i-th
Tab press (`none` models the script returning `null`).  The `for` loop over
30 steps becomes fuel recursion; `break` becomes returning without
recursing.  `results.tabOrder[i]?.id === results.tabOrder[i-1]?.id &&
results.tabOrder[i]?.id !== ''` is embedded through `idAt`, whose `none`
result models JavaScript `undefined` for an out-of-range index. -/

/-- One observed focused element (the object built by the injected script,
lines 635-643). -/
structure TabEl where
  tagName : String
  id : String
  className : String
  text : String
  hasFocusIndicator : Bool
deriving DecidableEq, Repr

/-- Result of one keyboard walk (`KeyboardNavResult`, lines 45-55). -/
structure KeyboardNavResult where
  tabOrder : List TabEl
  focusTraps : List TabEl
  missingFocusIndicators : List TabEl
deriving DecidableEq, Repr

/-- JavaScript `tabOrder[i]?.id`: `none` models `undefined`. -/
def idAt (l : List TabEl) (i : Nat) : Option String :=
  (l.get? i).map (fun e => e.id)

/-- The body of the keyboard-walk `for` loop (lines 626-665), as fuel
recursion: on each step consult the page, skip `null` observations, push
the element, flag a missing focus indicator, and stop as trapped when two
consecutive entries share a non-empty id. -/
def kbLoop (page : Nat → Option TabEl) :
    Nat → Nat → KeyboardNavResult → KeyboardNavResult
  | 0, _, r => r
  | fuel + 1, i, r =>
    match page i with
    | none => kbLoop page fuel (i + 1) r
    | some element =>
      if i > 0 ∧ idAt (r.tabOrder ++ [element]) i =
            idAt (r.tabOrder ++ [element]) (i - 1) ∧
          idAt (r.tabOrder ++ [element]) i ≠ some "" then
        ⟨r.tabOrder ++ [element], r.focusTraps ++ [element],
         if !element.hasFocusIndicator then
           r.missingFocusIndicators ++ [element]
         else r.missingFocusIndicators⟩
      else
        kbLoop page fuel (i + 1)
          ⟨r.tabOrder ++ [element], r.focusTraps,
           if !element.hasFocusIndicator then
             r.missingFocusIndicators ++ [element]
           else r.missingFocusIndicators⟩

/-- Run keyboard navigation test (`runKeyboardTest`): 30 Tab steps starting
from an empty result. -/
def runKeyboardTest (page : Nat → Option TabEl) : KeyboardNavResult :=
  kbLoop page 30 0 ⟨[], [], []⟩

/-- Unfolding of one fuelled step of the walk. -/
theorem kbLoop_succ (page : Nat → Option TabEl) (fuel i : Nat)
    (r : KeyboardNavResult) :
    kbLoop page (fuel + 1) i r =
      match page i with
      | none => kbLoop page fuel (i + 1) r
      | some element =>
        if i > 0 ∧ idAt (r.tabOrder ++ [element]) i =
              idAt (r.tabOrder ++ [element]) (i - 1) ∧
            idAt (r.tabOrder ++ [element]) i ≠ some "" then
          ⟨r.tabOrder ++ [element], r.focusTraps ++ [element],
           if !element.hasFocusIndicator then
             r.missingFocusIndicators ++ [element]
           else r.missingFocusIndicators⟩
        else
          kbLoop page fuel (i + 1)
            ⟨r.tabOrder ++ [element], r.focusTraps,
             if !element.hasFocusIndicator then
               r.missingFocusIndicators ++ [element]
             else r.missingFocusIndicators⟩ := rfl

/-- A step that observes an element and detects no trap pushes the element
and continues. -/
theorem kbLoop_step (page : Nat → Option TabEl) (fuel i : Nat)
    (r : KeyboardNavResult) (e : TabEl) (hp : page i = some e)
    (hc : ¬(i > 0 ∧ idAt (r.tabOrder ++ [e]) i = idAt (r.tabOrder ++ [e]) (i - 1) ∧
        idAt (r.tabOrder ++ [e]) i ≠ some "")) :
    kbLoop page (fuel + 1) i r =
      kbLoop page fuel (i + 1)
        ⟨r.tabOrder ++ [e], r.focusTraps,
         if !e.hasFocusIndicator then r.missingFocusIndicators ++ [e]
         else r.missingFocusIndicators⟩ := by
  rw [kbLoop_succ, hp]
  simp only [if_neg hc]

/-- A step that observes an element and detects a trap pushes the element to
both `tabOrder` and `focusTraps` and halts. -/
theorem kbLoop_trap (page : Nat → Option TabEl) (fuel i : Nat)
    (r : KeyboardNavResult) (e : TabEl) (hp : page i = some e)
    (hc : i > 0 ∧ idAt (r.tabOrder ++ [e]) i = idAt (r.tabOrder ++ [e]) (i - 1) ∧
        idAt (r.tabOrder ++ [e]) i ≠ some "") :
    kbLoop page (fuel + 1) i r =
      ⟨r.tabOrder ++ [e], r.focusTraps ++ [e],
       if !e.hasFocusIndicator then r.missingFocusIndicators ++ [e]
       else r.missingFocusIndicators⟩ := by
  rw [kbLoop_succ, hp]
  simp only [if_pos hc]

/-- C8: a walk observing elements with ids "a", "b", "b", "c" halts at the
second "b": `tabOrder` has length 3 (not 4) and `focusTraps` has exactly
one entry. -/
theorem runKeyboardTest_trap (f : Nat → TabEl)
    (h0 : (f 0).id = "a") (h1 : (f 1).id = "b")
    (h2 : (f 2).id = "b") (h3 : (f 3).id = "c") :
    (runKeyboardTest (fun i => some (f i))).tabOrder.length = 3 ∧
    (runKeyboardTest (fun i => some (f i))).focusTraps.length = 1 := by
  have hc0 : ¬((0 : Nat) > 0 ∧
      idAt (([] : List TabEl) ++ [f 0]) 0 = idAt (([] : List TabEl) ++ [f 0]) (0 - 1) ∧
      idAt (([] : List TabEl) ++ [f 0]) 0 ≠ some "") := by
    simp
  have hc1 : ¬((1 : Nat) > 0 ∧
      idAt (([] ++ [f 0]) ++ [f 1]) 1 = idAt (([] ++ [f 0]) ++ [f 1]) (1 - 1) ∧
      idAt (([] ++ [f 0]) ++ [f 1]) 1 ≠ some "") := by
    simp [idAt, h0, h1]
  have hc2 : ((2 : Nat) > 0 ∧
      idAt ((([] ++ [f 0]) ++ [f 1]) ++ [f 2]) 2 =
        idAt ((([] ++ [f 0]) ++ [f 1]) ++ [f 2]) (2 - 1) ∧
      idAt ((([] ++ [f 0]) ++ [f 1]) ++ [f 2]) 2 ≠ some "") := by
    refine ⟨by omega, ?_, ?_⟩ <;> simp [idAt, h1, h2]
  unfold runKeyboardTest
  rw [show (30 : Nat) = 29 + 1 from rfl,
    kbLoop_step (fun i => some (f i)) 29 0 ⟨[], [], []⟩ (f 0) rfl hc0]
  rw [show (29 : Nat) = 28 + 1 from rfl,
    kbLoop_step (fun i => some (f i)) 28 1 _ (f 1) rfl hc1]
  rw [show (28 : Nat) = 27 + 1 from rfl,
    kbLoop_trap (fun i => some (f i)) 27 2 _ (f 2) rfl hc2]
  simp

/-- Witness for C8 on a concrete trapped page. -/
theorem runKeyboardTest_trap_witness :
    (runKeyboardTest (fun i =>
      some ⟨"BUTTON", ["a", "b", "b", "c"].getD i "x", "", "", true⟩)).tabOrder.length = 3 ∧
    (runKeyboardTest (fun i =>
      some ⟨"BUTTON", ["a", "b", "b", "c"].getD i "x", "", "", true⟩)).focusTraps.length = 1 := by
  exact runKeyboardTest_trap
    (fun i => ⟨"BUTTON", ["a", "b", "b", "c"].getD i "x", "", "", true⟩)
    rfl rfl rfl rfl

/-- A walk whose consecutive observations never share a non-empty id runs to
the end of its fuel, visiting every observed element and trapping nothing. -/
theorem kbLoop_no_trap_run (f : Nat → TabEl) :
    ∀ fuel i r, r.tabOrder = (List.range i).map f →
    (∀ j, 0 < j → j < i + fuel → ¬((f j).id = (f (j - 1)).id ∧ (f j).id ≠ "")) →
    (kbLoop (fun k => some (f k)) fuel i r).tabOrder =
      (List.range (i + fuel)).map f ∧
    (kbLoop (fun k => some (f k)) fuel i r).focusTraps = r.focusTraps := by
  intro fuel
  induction fuel with
  | zero =>
    intro i r htb _
    simpa [kbLoop] using htb
  | succ fuel ih =>
    intro i r htb hno
    have hto : r.tabOrder ++ [f i] = (List.range (i + 1)).map f := by
      rw [htb, List.range_succ, List.map_append]
      rfl
    have hlen : r.tabOrder.length = i := by
      rw [htb, List.length_map, List.length_range]
    have hcnd : ¬(i > 0 ∧ idAt (r.tabOrder ++ [f i]) i =
        idAt (r.tabOrder ++ [f i]) (i - 1) ∧
        idAt (r.tabOrder ++ [f i]) i ≠ some "") := by
      rintro ⟨hi, hEq, hNe⟩
      have g1 : idAt (r.tabOrder ++ [f i]) i = some (f i).id := by
        rw [idAt, ← hlen, List.get?_concat_length]
        rfl
      have g2 : idAt (r.tabOrder ++ [f i]) (i - 1) = some (f (i - 1)).id := by
        have hi1 : i - 1 < r.tabOrder.length := by omega
        rw [idAt, List.get?_append hi1, htb, List.get?_map,
          List.get?_range (by omega : i - 1 < i)]
        rfl
      rw [g1, g2] at hEq
      rw [g1] at hNe
      refine hno i hi (by omega) ⟨Option.some.inj hEq, fun h => hNe ?_⟩
      rw [h]
    rw [kbLoop_step (fun k => some (f k)) fuel i r (f i) rfl hcnd]
    have hres := ih (i + 1)
      ⟨r.tabOrder ++ [f i], r.focusTraps,
       if !(f i).hasFocusIndicator then r.missingFocusIndicators ++ [f i]
       else r.missingFocusIndicators⟩
      hto
      (by
        intro j hj hjlt
        exact hno j hj (by omega))
    have harith : i + 1 + fuel = i + (fuel + 1) := by omega
    rw [harith] at hres
    exact hres

/-- C9: a walk in which no two consecutive observed elements share a
non-empty id exhausts the 30-step budget: `tabOrder` has length 30 and
`focusTraps` is empty. -/
theorem runKeyboardTest_exhausts (f : Nat → TabEl)
    (hno : ∀ j, 0 < j → j < 30 → ¬((f j).id = (f (j - 1)).id ∧ (f j).id ≠ "")) :
    (runKeyboardTest (fun i => some (f i))).tabOrder.length = 30 ∧
    (runKeyboardTest (fun i => some (f i))).focusTraps = [] := by
  have h := kbLoop_no_trap_run f 30 0 ⟨[], [], []⟩ (by simp) (by simpa using hno)
  unfold runKeyboardTest
  constructor
  · rw [h.1, List.length_map, List.length_range]
  · exact h.2

/-- Witness for C9 on a concrete page with all ids empty. -/
theorem runKeyboardTest_exhausts_witness :
    (runKeyboardTest (fun _ => some ⟨"A", "", "", "", true⟩)).tabOrder.length = 30 ∧
    (runKeyboardTest (fun _ => some ⟨"A", "", "", "", true⟩)).focusTraps = [] := by
  exact runKeyboardTest_exhausts (fun _ => ⟨"A", "", "", "", true⟩)
    (by
      intro j hj hjlt hcontra
      exact hcontra.2 rfl)

/-! ## Focus indicator fix (`generateFocusIndicatorFix`, lines 368-414) -/

/-- The element argument of `generateFocusIndicatorFix`. -/
structure ElementDescriptor where
  tagName : String
  className : String
deriving DecidableEq, Repr

/-- JavaScript `s.toLowerCase()` on the characters of the string. -/
def toLowerStr (s : String) : String :=
  String.mk (s.data.map Char.toLower)

/-- The selector derivation of `generateFocusIndicatorFix` (lines 372-374):
`element.className ? "." + element.className.split(' ')[0] :
element.tagName.toLowerCase()`.  The split is on the space character. -/
def focusSelector (element : ElementDescriptor) : String :=
  if element.className = "" then toLowerStr element.tagName
  else "." ++ (jsSplitChar element.className ' ').headD ""

/-- Splitter on whitespace characters, used only to state the claimed
selector derivation. -/
def splitWsAux : List Char → List Char → List (List Char)
  | [], acc => [acc.reverse]
  | c :: rest, acc =>
      if c.isWhitespace then acc.reverse :: splitWsAux rest []
      else splitWsAux rest (c :: acc)

/-- Modelled from the spec claim's words: the selector said to be derived as
"." followed by the first whitespace-separated token of `className` when
`className` is non-empty, and the lowercased tag name otherwise.  Stated
only to compare with the source derivation `focusSelector`. -/
def claimedFocusSelector (element : ElementDescriptor) : String :=
  if element.className = "" then toLowerStr element.tagName
  else
    "." ++
      ((((splitWsAux element.className.data []).map String.mk).filter
        (fun s => s != "")).headD "")

/-- Generate focus indicator CSS fix (`generateFocusIndicatorFix`,
lines 368-414). -/
def generateFocusIndicatorFix (element : ElementDescriptor) : String :=
  "\n/* Fix: Missing visible focus indicator */\n/* WCAG: 2.4.7 Focus Visible Level AA */\n/* WCAG: 2.4.13 Focus Appearance Level AAA */\n\n/* Global focus styles */\n*:focus \x7b\n  outline: 2px solid #005fcc;\n  outline-offset: 2px;\n\x7d\n\n/* Or use focus-visible for keyboard-only focus */\n*:focus-visible \x7b\n  outline: 2px solid #005fcc;\n  outline-offset: 2px;\n\x7d\n\n/* Hide outline on mouse click but show for keyboard */\n*:focus:not(:focus-visible) \x7b\n  outline: none;\n\x7d\n\n/* Specific element fix */\n"
  ++ (focusSelector element ++ ":focus")
  ++ ",\n"
  ++ focusSelector element
  ++ ":focus-visible \x7b\n  outline: 2px solid #005fcc;\n  outline-offset: 2px;\n  /* Alternative: box-shadow for rounded elements */\n  box-shadow: 0 0 0 3px rgba(0, 95, 204, 0.5);\n\x7d\n\n/* High contrast mode support */\n@media (forced-colors: active) \x7b\n  "
  ++ focusSelector element
  ++ ":focus \x7b\n    outline: 3px solid CanvasText;\n  \x7d\n\x7d\n"

/-- C10 counterexample: for `className = "foo\x5ct bar"`-style input — here the
tab-separated `"foo\x09bar"` — the source splits on the space character only,
so the selector keeps the tab and both whitespace-separated-token readings
of the claim fail: the derived selector differs from the claimed one, and
the generated CSS contains no `:focus` rule for the claimed selector. -/
theorem focusSelector_whitespace_counterexample :
    focusSelector ⟨"DIV", "foo\tbar"⟩ ≠ claimedFocusSelector ⟨"DIV", "foo\tbar"⟩ ∧
    strContainsB (generateFocusIndicatorFix ⟨"DIV", "foo\tbar"⟩)
      (claimedFocusSelector ⟨"DIV", "foo\tbar"⟩ ++ ":focus") = false := by
  constructor
  · decide
  · decide

/-- C10 (amended): the selector is "." followed by the first
space-character-separated field of `className` (JavaScript
`className.split(' ')[0]`) when `className` is non-empty, and the lowercased
tag name otherwise; the returned CSS contains `:focus` rules for that
selector. -/
theorem generateFocusIndicatorFix_selector (el : ElementDescriptor) :
    (el.className ≠ "" →
      strContainsB (generateFocusIndicatorFix el)
        ("." ++ (jsSplitChar el.className ' ').headD "" ++ ":focus") = true) ∧
    (el.className = "" →
      strContainsB (generateFocusIndicatorFix el)
        (toLowerStr el.tagName ++ ":focus") = true) := by
  constructor
  · intro h
    have hsel : focusSelector el = "." ++ (jsSplitChar el.className ' ').headD "" := by
      unfold focusSelector
      rw [if_neg h]
    unfold generateFocusIndicatorFix
    rw [hsel]
    apply strContains_append_right
    apply strContains_append_right
    apply strContains_append_right
    apply strContains_append_right
    apply strContains_append_right
    exact strContains_append_left _ (strContains_self _)
  · intro h
    have hsel : focusSelector el = toLowerStr el.tagName := by
      unfold focusSelector
      rw [if_pos h]
    unfold generateFocusIndicatorFix
    rw [hsel]
    apply strContains_append_right
    apply strContains_append_right
    apply strContains_append_right
    apply strContains_append_right
    apply strContains_append_right
    exact strContains_append_left _ (strContains_self _)

/-- Witness for the amended C10 at concrete elements for both branches. -/
theorem generateFocusIndicatorFix_selector_witness :
    strContainsB (generateFocusIndicatorFix ⟨"DIV", "btn primary"⟩)
      ("." ++ (jsSplitChar "btn primary" ' ').headD "" ++ ":focus") = true ∧
    strContainsB (generateFocusIndicatorFix ⟨"BUTTON", ""⟩)
      (toLowerStr "BUTTON" ++ ":focus") = true := by
  exact ⟨(generateFocusIndicatorFix_selector ⟨"DIV", "btn primary"⟩).1 (by decide),
    (generateFocusIndicatorFix_selector ⟨"BUTTON", ""⟩).2 rfl⟩

end A11y
